import Mathlib

/-!
Verification of the bank-statement validation engine.

Shallow embedding conventions:
* Python `Decimal` values are represented by `Decimal` (an integer mantissa
  together with a base-10 exponent, mirroring `Decimal.as_tuple()`); the
  rational `Decimal.val` is the numeric value.  `Decimal` arithmetic on the
  magnitudes appearing here is exact, so value-level arithmetic is carried
  out in `ℚ`.
* Python `float` quantities (confidences, weights, rates) are modelled as
  exact rationals.
* Python `datetime.date` is modelled by `CalDate` (year, month, day);
  comparison of dates is lexicographic, exactly as in Python, and
  `CalDate.toOrdinal` gives a day number (days since 1970-01-01) so that
  differences of ordinals equal differences of Python `toordinal` values.
* `None` becomes `Option.none`; Python truthiness on strings and lists is
  emptiness, on numbers it is comparison with zero.
* Loops with `enumerate` indices become structural recursions carrying the
  index explicitly.
-/

/-- Model of Python `decimal.Decimal`: value `mant · 10 ^ exp`, with `exp`
the representation exponent from `Decimal.as_tuple()`. -/
structure Decimal where
  mant : Int
  exp : Int
deriving DecidableEq, Repr

/-- Numeric value of a `Decimal`. -/
def Decimal.val (d : Decimal) : ℚ :=
  if 0 ≤ d.exp then d.mant * 10 ^ d.exp.toNat else d.mant / 10 ^ (-d.exp).toNat

/-- Model of Python `datetime.date`. -/
structure CalDate where
  year : Int
  month : Int
  day : Int
deriving DecidableEq, Repr

/-- Python date ordering is lexicographic on (year, month, day). -/
def CalDate.ltb (a b : CalDate) : Bool :=
  decide (a.year < b.year) ||
    (decide (a.year = b.year) &&
      (decide (a.month < b.month) ||
        (decide (a.month = b.month) && decide (a.day < b.day))))

/-- Day number of a proleptic-Gregorian date (days since 1970-01-01);
differences of these equal differences of Python `date.toordinal()`. -/
def CalDate.toOrdinal (dt : CalDate) : Int :=
  let y := dt.year - (if dt.month ≤ 2 then 1 else 0)
  let era := y.fdiv 400
  let yoe := y - era * 400
  let doy := (153 * (dt.month + (if 2 < dt.month then -3 else 9)) + 2).fdiv 5 + dt.day - 1
  let doe := yoe * 365 + yoe.fdiv 4 - yoe.fdiv 100 + doy
  era * 146097 + doe - 719468

/-- Zero-padded decimal rendering of a non-negative integer. -/
def padNum (w : Nat) (n : Int) : String :=
  let s := Nat.toDigits 10 n.toNat
  String.mk (List.replicate (w - s.length) '0' ++ s)

/-- `str()` of a Python `date` (ISO format). -/
def CalDate.isoString (dt : CalDate) : String :=
  padNum 4 dt.year ++ "-" ++ padNum 2 dt.month ++ "-" ++ padNum 2 dt.day

/-- `str()` of a Python `Decimal` (CPython `Decimal.__str__` for finite
values, sign taken from the mantissa). -/
def Decimal.toDisplay (d : Decimal) : String :=
  let sign := if d.mant < 0 then "-" else ""
  let digits := Nat.toDigits 10 d.mant.natAbs
  let ndig : Int := digits.length
  let leftdigits := d.exp + ndig
  let dotplace := if d.exp ≤ 0 ∧ -6 < leftdigits then leftdigits else 1
  let intpart :=
    if dotplace ≤ 0 then "0"
    else if ndig ≤ dotplace then
      String.mk digits ++ String.mk (List.replicate (dotplace - ndig).toNat '0')
    else String.mk (digits.take dotplace.toNat)
  let fracpart :=
    if dotplace ≤ 0 then
      "." ++ String.mk (List.replicate (-dotplace).toNat '0') ++ String.mk digits
    else if dotplace < ndig then "." ++ String.mk (digits.drop dotplace.toNat)
    else ""
  let expo :=
    if leftdigits = dotplace then ""
    else "E" ++ (if 0 ≤ leftdigits - dotplace then "+" else "") ++ toString (leftdigits - dotplace)
  sign ++ intpart ++ fracpart ++ expo

/-- `models/ocr_result.py`: `TransactionRow` (bounding box, posting date and
reference number are never read by the validators and are omitted). -/
structure TransactionRow where
  transaction_date : Option CalDate
  description : String
  deposit : Option Decimal := none
  withdrawal : Option Decimal := none
  balance : Option Decimal := none
  date_confidence : ℚ := 0
  description_confidence : ℚ := 0
  amount_confidence : ℚ := 0
  balance_confidence : ℚ := 0
  page_number : Int := 1
  amount_raw : String := ""
  date_raw : String := ""
deriving DecidableEq, Repr

/-- `models/ocr_result.py`: `OCRResult` (document id / engine / timestamps
are never read by the validators and are omitted). -/
structure OCRResult where
  rows : List TransactionRow := []
  header : List String := []
  header_detected : Bool := false
  header_confidence : ℚ := 0
  opening_balance : Option Decimal := none
  closing_balance : Option Decimal := none
  page_count : Int := 1
  overall_confidence : ℚ := 0
deriving DecidableEq, Repr

/-- `models/validation_report.py`: `RuleViolation` (the human-readable
`message` carries no additional data and is omitted; `expected`, `actual`
and `difference` are stored as their numeric values). -/
structure RuleViolation where
  rule : String
  severity : String
  row : Option Nat := none
  field : Option String := none
  expected : Option ℚ := none
  actual : Option ℚ := none
  difference : Option ℚ := none
deriving DecidableEq, Repr

/-- `HardRulesValidator.__init__`: tolerance `Decimal('0.02')`. -/
def tolerance : ℚ := 2 / 100

/-- `HardRulesValidator.is_valid_currency`: at most 2 digits of exponent
(`abs(amount.as_tuple().exponent) <= 2`) and `abs(amount) <= 1_000_000`. -/
def is_valid_currency (amount : Decimal) : Bool :=
  if 2 < amount.exp.natAbs then false
  else if (1000000 : ℚ) < |amount.val| then false
  else true

/-- One iteration of the `validate_date_range` loop: checks for row `idx`
given the previous row (if any). -/
def dateRowChecks (today : CalDate) (prev : Option TransactionRow) (idx : Nat)
    (row : TransactionRow) : List RuleViolation :=
  match row.transaction_date with
  | none => [{ rule := "DATE_MISSING", severity := "CRITICAL", row := some idx }]
  | some d =>
    (if today.ltb d then
      [{ rule := "DATE_IN_FUTURE", severity := "CRITICAL", row := some idx }]
    else []) ++
    (match prev with
     | none => []
     | some p =>
       match p.transaction_date with
       | none => []
       | some pd =>
         if d.ltb pd then
           [{ rule := "DATE_NOT_MONOTONIC", severity := "HIGH", row := some idx }]
         else [])

/-- The `validate_date_range` loop, carrying the previous row and index. -/
def dateRangeAux (today : CalDate) :
    Option TransactionRow → Nat → List TransactionRow → List RuleViolation
  | _, _, [] => []
  | prev, idx, row :: rest =>
    dateRowChecks today prev idx row ++ dateRangeAux today (some row) (idx + 1) rest

/-- `HardRulesValidator.validate_date_range`. -/
def validate_date_range (today : CalDate) (result : OCRResult) : List RuleViolation :=
  dateRangeAux today none 0 result.rows

/-- One iteration of the `validate_amount_format` loop. -/
def amountRowChecks (idx : Nat) (row : TransactionRow) : List RuleViolation :=
  (match row.deposit, row.withdrawal with
   | none, none => [{ rule := "NO_AMOUNT", severity := "HIGH", row := some idx }]
   | some d, some w =>
     if d.val ≠ 0 ∧ w.val ≠ 0 then
       [{ rule := "BOTH_DEPOSIT_WITHDRAWAL", severity := "MEDIUM", row := some idx }]
     else []
   | _, _ => []) ++
  (match row.deposit with
   | some d =>
     if is_valid_currency d then []
     else [{ rule := "INVALID_AMOUNT_FORMAT", severity := "CRITICAL",
             row := some idx, field := some "deposit" }]
   | none => []) ++
  (match row.withdrawal with
   | some w =>
     if is_valid_currency w then []
     else [{ rule := "INVALID_AMOUNT_FORMAT", severity := "CRITICAL",
             row := some idx, field := some "withdrawal" }]
   | none => []) ++
  (match row.balance with
   | some b =>
     if is_valid_currency b then []
     else [{ rule := "INVALID_AMOUNT_FORMAT", severity := "CRITICAL",
             row := some idx, field := some "balance" }]
   | none => [])

/-- The `validate_amount_format` loop, carrying the row index. -/
def amountFormatAux : Nat → List TransactionRow → List RuleViolation
  | _, [] => []
  | idx, row :: rest => amountRowChecks idx row ++ amountFormatAux (idx + 1) rest

/-- `HardRulesValidator.validate_amount_format`. -/
def validate_amount_format (result : OCRResult) : List RuleViolation :=
  amountFormatAux 0 result.rows

/-- One iteration of the `validate_running_balance` loop for the adjacent
pair at rows `i-1`, `i`. -/
def runPairCheck (i : Nat) (prev curr : TransactionRow) : List RuleViolation :=
  match prev.balance, curr.balance with
  | some pb, some cb =>
    let expected := pb.val +
      (match curr.deposit with | some d => d.val | none => 0) -
      (match curr.withdrawal with | some w => w.val | none => 0)
    let diff := |expected - cb.val|
    if tolerance < diff then
      [{ rule := "RUNNING_BALANCE_MISMATCH", severity := "CRITICAL", row := some i,
         expected := some expected, actual := some cb.val, difference := some diff }]
    else []
  | _, _ => []

/-- The `validate_running_balance` loop: `i` is the index of `curr` in the
full row list, `prev` the row at `i - 1`. -/
def runningBalanceAux : Nat → TransactionRow → List TransactionRow → List RuleViolation
  | _, _, [] => []
  | i, prev, curr :: rest => runPairCheck i prev curr ++ runningBalanceAux (i + 1) curr rest

/-- `HardRulesValidator.validate_running_balance`. -/
def validate_running_balance (result : OCRResult) : List RuleViolation :=
  match result.rows with
  | [] => []
  | r :: rest => runningBalanceAux 1 r rest

/-- Sum of the deposits present in the rows. -/
def totalDeposits (rows : List TransactionRow) : ℚ :=
  (rows.map fun r => match r.deposit with | some d => d.val | none => 0).sum

/-- Sum of the withdrawals present in the rows. -/
def totalWithdrawals (rows : List TransactionRow) : ℚ :=
  (rows.map fun r => match r.withdrawal with | some w => w.val | none => 0).sum

/-- `HardRulesValidator.validate_overall_balance`. -/
def validate_overall_balance (result : OCRResult) : List RuleViolation :=
  match result.opening_balance, result.closing_balance with
  | some ob, some cb =>
    let expected := ob.val + totalDeposits result.rows - totalWithdrawals result.rows
    let diff := |expected - cb.val|
    if tolerance < diff then
      [{ rule := "OVERALL_BALANCE_MISMATCH", severity := "CRITICAL",
         expected := some expected, actual := some cb.val, difference := some diff }]
    else []
  | _, _ => []

/-- `HardRulesValidator.validate`: run all hard rules in order. -/
def validate (today : CalDate) (result : OCRResult) : List RuleViolation :=
  if result.rows = [] then
    [{ rule := "NO_ROWS", severity := "CRITICAL" }]
  else
    validate_date_range today result ++ validate_amount_format result ++
      validate_running_balance result ++ validate_overall_balance result

/-- Number of monetary fields present in a row. -/
def presentCount (row : TransactionRow) : Nat :=
  (if row.deposit.isSome then 1 else 0) +
    (if row.withdrawal.isSome then 1 else 0) +
    (if row.balance.isSome then 1 else 0)

/-- The field loop of `count_checks`. -/
def fieldChecksCount : List TransactionRow → Nat
  | [] => 0
  | row :: rest => presentCount row + fieldChecksCount rest

/-- The running-balance pairing loop of `count_checks`, with `prev` the row
preceding the list. -/
def balancePairsAux : TransactionRow → List TransactionRow → Nat
  | _, [] => 0
  | prev, curr :: rest =>
    (if prev.balance.isSome && curr.balance.isSome then 1 else 0) + balancePairsAux curr rest

/-- Number of adjacent pairs with both balances present. -/
def balancePairsCount : List TransactionRow → Nat
  | [] => 0
  | r :: rest => balancePairsAux r rest

/-- `HardRulesValidator.count_checks`. -/
def count_checks (result : OCRResult) : Nat :=
  if result.rows = [] then 1
  else
    result.rows.length +
      (if 1 < result.rows.length then result.rows.length - 1 else 0) +
      result.rows.length +
      fieldChecksCount result.rows +
      balancePairsCount result.rows +
      (if result.opening_balance.isSome && result.closing_balance.isSome then 1 else 0)

/-- `models/validation_report.py`: the fields of `ValidationReport` read or
written by `calculate_summary` and the pipeline (warnings, components and
output artifacts are carried along unchanged and omitted). -/
structure ValidationReport where
  validation_status : String
  rule_violations : List RuleViolation := []
  total_checks : Nat := 0
  passed_checks : Nat := 0
  failed_checks : Nat := 0
  rule_pass_rate : ℚ := 0
  overall_confidence : ℚ := 0
deriving DecidableEq, Repr

/-- `ValidationReport.calculate_summary`. -/
def calculate_summary (r : ValidationReport) : ValidationReport :=
  let total :=
    if r.total_checks = 0 then r.passed_checks + r.failed_checks
    else if r.total_checks < r.passed_checks + r.failed_checks then
      r.passed_checks + r.failed_checks
    else r.total_checks
  let critical_count := r.rule_violations.countP fun v => v.severity == "CRITICAL"
  let high_count := r.rule_violations.countP fun v => v.severity == "HIGH"
  let status :=
    if 0 < critical_count then "NEEDS_REVIEW"
    else if 0 < high_count ∨ (total : ℚ) * (1 / 10) < (r.failed_checks : ℚ) then
      "REVIEW_RECOMMENDED"
    else "APPROVED"
  let rate := if 0 < total then (r.passed_checks : ℚ) / total else 0
  let conf := if 0 < total ∧ r.overall_confidence = 0 then rate else r.overall_confidence
  { r with total_checks := total, validation_status := status,
           rule_pass_rate := rate, overall_confidence := conf }

/-- `core/pipeline.py` (`BankStatementPipeline.process`, steps 3-5): merge
the hard-rule violations into a fresh report, set `total_checks` from
`count_checks`, `passed_checks = max(total - failed, 0)` (natural
subtraction), and run `calculate_summary`. -/
def pipeline_process (today : CalDate) (result : OCRResult) : ValidationReport :=
  let violations := validate today result
  calculate_summary
    { validation_status := "APPROVED"
      rule_violations := violations
      total_checks := count_checks result
      passed_checks := count_checks result - violations.length
      failed_checks := violations.length }

/-- `risk_signal_detector.py`: `ValidationConfig` (the `confidence_weights`
entries are consumed by the scorer; `trigger_rules` keys become Booleans). -/
structure ValidationConfig where
  confidence_threshold : ℚ := 17 / 20
  cov_transaction_date : ℚ := 19 / 20
  cov_amount : ℚ := 9 / 10
  cov_balance : ℚ := 17 / 20
  w_engine_quality : ℚ := 3 / 10
  w_field_completeness : ℚ := 1 / 4
  w_rule_consistency : ℚ := 3 / 10
  w_risk_signals : ℚ := 3 / 20
  trig_low_confidence : Bool := true
  trig_low_coverage : Bool := true
  trig_structural_anomaly : Bool := true
  trig_logic_failure : Bool := true
  trig_unknown_template : Bool := true
deriving DecidableEq, Repr

/-- The default `ValidationConfig()`. -/
def defaultConfig : ValidationConfig := {}

/-- `models/ocr_result.py`: `RiskSignal` (details dict and message omitted;
`severity` and `action` are the values `RiskSignals.add` extracts). -/
structure RiskSignal where
  signal_type : String
  severity : String
  action : String
deriving DecidableEq, Repr

/-- One entry of the `low_conf_fields` list in `check_low_confidence`. -/
structure LowConfField where
  row : Nat
  fieldName : String
  confidence : ℚ
  priority : String
deriving DecidableEq, Repr

/-- The row loop of `check_low_confidence`, carrying the row index. -/
def lowConfAux (threshold : ℚ) : Nat → List TransactionRow → List LowConfField
  | _, [] => []
  | idx, row :: rest =>
    (if row.amount_confidence < threshold then
      [{ row := idx, fieldName := "amount", confidence := row.amount_confidence,
         priority := "P0" }]
    else []) ++
    (if row.balance_confidence < threshold then
      [{ row := idx, fieldName := "balance", confidence := row.balance_confidence,
         priority := "P0" }]
    else []) ++
    (if row.date_confidence < threshold then
      [{ row := idx, fieldName := "transaction_date", confidence := row.date_confidence,
         priority := "P1" }]
    else []) ++
    lowConfAux threshold (idx + 1) rest

/-- `RiskSignalDetector.check_low_confidence`. -/
def check_low_confidence (c : ValidationConfig) (result : OCRResult) : List LowConfField :=
  let low_conf_fields := lowConfAux c.confidence_threshold 0 result.rows
  let p0_count := low_conf_fields.countP fun f => f.priority == "P0"
  let p1_count := low_conf_fields.countP fun f => f.priority == "P1"
  let p1_rate : ℚ :=
    if result.rows = [] then 0 else (p1_count : ℚ) / (result.rows.length : ℚ)
  if 0 < p0_count ∨ (1 / 5 : ℚ) < p1_rate then low_conf_fields else []

/-- `RiskSignalDetector.check_field_coverage`: returns the severity of the
`LOW_FIELD_COVERAGE` signal when some field is below its threshold. -/
def check_field_coverage (c : ValidationConfig) (result : OCRResult) : Option String :=
  if result.rows = [] then none
  else
    let n : ℚ := result.rows.length
    let missing_date := result.rows.countP fun row => !row.transaction_date.isSome
    let missing_amount := result.rows.countP fun row =>
      !row.deposit.isSome && !row.withdrawal.isSome
    let missing_balance := result.rows.countP fun row => !row.balance.isSome
    let cov_date := 1 - (missing_date : ℚ) / n
    let cov_amount := 1 - (missing_amount : ℚ) / n
    let cov_balance := 1 - (missing_balance : ℚ) / n
    let below : List ℚ :=
      (if cov_date < c.cov_transaction_date then [cov_date] else []) ++
        (if cov_amount < c.cov_amount then [cov_amount] else []) ++
        (if cov_balance < c.cov_balance then [cov_balance] else [])
    if below = [] then none
    else some (if below.any fun s => decide (s < 7 / 10) then "HIGH" else "MEDIUM")

/-- `RiskSignalDetector.check_structural_anomaly`: the list of issue type
tags appended by the three sub-checks. -/
def check_structural_anomaly (result : OCRResult) : List String :=
  if result.rows.length < 3 then []
  else
    let incomplete := result.rows.countP fun row =>
      decide (2 ≤ (if row.transaction_date.isSome then 0 else 1) +
        (if row.balance.isSome then 0 else 1) +
        (if !row.deposit.isSome && !row.withdrawal.isSome then 1 else 0))
    (if (result.rows.length : ℚ) * (1 / 10) < (incomplete : ℚ) then
      ["INCONSISTENT_ROWS"]
    else []) ++
    (if !result.header_detected || decide (result.header_confidence < 7 / 10) then
      ["HEADER_DETECTION_FAILURE"]
    else []) ++
    (if 1 < result.page_count ∧
        0 < (result.rows.zip result.rows.tail).countP
          fun p => !(p.1.page_number == p.2.page_number) then
      ["MULTI_PAGE_DOCUMENT"]
    else [])

/-- Maximum of two dates under the Python ordering. -/
def dateMax (a b : CalDate) : CalDate := if a.ltb b then b else a

/-- Minimum of two dates under the Python ordering. -/
def dateMin (a b : CalDate) : CalDate := if b.ltb a then b else a

/-- `RiskSignalDetector.quick_logic_check`: the list of logic error type
tags, one per appended error dict. -/
def quick_logic_check (result : OCRResult) : List String :=
  (match result.opening_balance, result.closing_balance with
   | some ob, some cb =>
     if result.rows = [] then []
     else
       let expected := ob.val + totalDeposits result.rows - totalWithdrawals result.rows
       if cb.val ≠ 0 ∧ (1 / 10 : ℚ) < |expected - cb.val| / |cb.val| then
         ["BALANCE_MISMATCH"]
       else []
   | _, _ => []) ++
  (match result.rows.filterMap (fun r => r.transaction_date) with
   | [] => []
   | d :: ds =>
     if 400 < (ds.foldl dateMax d).toOrdinal - (ds.foldl dateMin d).toOrdinal then
       ["DATE_RANGE_ANOMALY"]
     else []) ++
  (result.rows.map fun row =>
    (match row.deposit with
     | some d => if d.val < 0 then ["NEGATIVE_DEPOSIT"] else []
     | none => []) ++
    (match row.withdrawal with
     | some w => if w.val < 0 then ["NEGATIVE_WITHDRAWAL"] else []
     | none => [])).flatten

/-- Does `hay` contain `needle` as a contiguous subsequence
(Python `needle in hay` on strings)? -/
def containsSeq (needle : List Char) : List Char → Bool
  | [] => needle.isEmpty
  | c :: rest =>
    (decide (needle.take needle.length = (c :: rest).take needle.length)) ||
      containsSeq needle rest

/-- The flattened keyword lists of `RiskSignalDetector.known_banks`. -/
def knownBankKeywords : List String :=
  ["Royal Bank", "RBC", "Royal", "TD Bank", "Toronto-Dominion", "TD Canada",
   "Bank of Montreal", "BMO", "BMO Bank", "Scotiabank", "Scotia",
   "Bank of Nova Scotia", "CIBC", "Canadian Imperial", "Imperial Bank"]

/-- Lower-cased character list of a string (Python `.lower()`). -/
def lowerChars (s : String) : List Char := s.toList.map Char.toLower

/-- `RiskSignalDetector.detect_bank_template`. -/
def detect_bank_template (result : OCRResult) : ℚ :=
  if result.rows = [] then 0
  else
    let text_sample := String.intercalate " "
      (((result.rows.take 5).map fun r => r.description).filter fun s => s ≠ "")
    if knownBankKeywords.any fun kw => containsSeq (lowerChars kw) (lowerChars text_sample)
    then 9 / 10
    else if result.header ≠ [] ∧
        (knownBankKeywords.any fun kw =>
          containsSeq (lowerChars kw) (lowerChars (String.intercalate " " result.header)))
    then 17 / 20
    else 3 / 10

/-- `RiskSignalDetector.detect_signals`: the accumulated signal list, with
each `RiskSignals.add` call recorded as one `RiskSignal`. -/
def detect_signals (c : ValidationConfig) (result : OCRResult) : List RiskSignal :=
  if result.rows = [] then
    [{ signal_type := "NO_ROWS", severity := "CRITICAL", action := "MANUAL_REVIEW" }]
  else
    (if c.trig_low_confidence ∧ check_low_confidence c result ≠ [] then
      [{ signal_type := "LOW_CONFIDENCE", severity := "HIGH",
         action := "REVIEW_RECOMMENDED" }]
    else []) ++
    (match (if c.trig_low_coverage then check_field_coverage c result else none) with
     | some sev =>
       [{ signal_type := "LOW_FIELD_COVERAGE", severity := sev,
          action := "REVIEW_RECOMMENDED" }]
     | none => []) ++
    (if c.trig_structural_anomaly ∧ check_structural_anomaly result ≠ [] then
      [{ signal_type := "STRUCTURAL_ANOMALY", severity := "MEDIUM",
         action := "REVIEW_RECOMMENDED" }]
    else []) ++
    (if c.trig_logic_failure ∧ quick_logic_check result ≠ [] then
      [{ signal_type := "LOGIC_FAILURE", severity := "CRITICAL",
         action := "MANUAL_REVIEW" }]
    else []) ++
    (if c.trig_unknown_template ∧ detect_bank_template result < 7 / 10 then
      [{ signal_type := "UNKNOWN_TEMPLATE", severity := "MEDIUM",
         action := "REVIEW_RECOMMENDED" }]
    else [])

/-- Severity counts of a signal list, as in `RiskSignals.to_dict`:
(critical, high, medium, low). -/
def severityCounts (signals : List RiskSignal) : Nat × Nat × Nat × Nat :=
  (signals.countP (fun s => s.severity == "CRITICAL"),
   signals.countP (fun s => s.severity == "HIGH"),
   signals.countP (fun s => s.severity == "MEDIUM"),
   signals.countP (fun s => s.severity == "LOW"))

/-- `ConfidenceScorer._weighted_score` over (score, weight) pairs; in the
four call sites of `assess` the score is always a number, so `none` never
occurs there, but the filter retains the availability test. -/
def weighted_score (components : List (Option ℚ × ℚ)) : ℚ :=
  let usable := components.filter fun c => c.1.isSome && decide (0 < c.2)
  let total_weight := (usable.map fun c => c.2).sum
  if total_weight ≤ 0 then 0
  else
    let score := (usable.map fun c => c.1.getD 0 * c.2).sum / total_weight
    max 0 (min 1 score)

/-- `ConfidenceScorer._label`. -/
def scorer_label (score : ℚ) : String :=
  if 17 / 20 ≤ score then "High" else if 7 / 10 ≤ score then "Medium" else "Low"

/-- `ConfidenceScorer._engine_confidence`: the non-zero per-field
confidences collected by the row loop are those of date, amount and
balance. -/
def engine_confidence (result : OCRResult) : ℚ :=
  if 0 < result.overall_confidence then result.overall_confidence
  else
    let confidences :=
      (result.rows.map fun row =>
        [row.date_confidence, row.amount_confidence, row.balance_confidence].filter
          fun v => decide (v ≠ 0)).flatten
    if confidences = [] then 0 else confidences.sum / confidences.length

/-- `ConfidenceScorer._field_completeness` (the returned score). -/
def field_completeness (result : OCRResult) : ℚ :=
  if result.rows = [] then 0
  else
    let n : ℚ := result.rows.length
    let date_count := result.rows.countP fun row => row.transaction_date.isSome
    let amount_count := result.rows.countP fun row =>
      row.deposit.isSome || row.withdrawal.isSome
    let balance_count := result.rows.countP fun row => row.balance.isSome
    ((date_count : ℚ) / n + (amount_count : ℚ) / n + (balance_count : ℚ) / n) / 3

/-- `ConfidenceScorer._risk_signal_score` from the severity counts of the
risk-signal summary. -/
def risk_signal_score (critical high medium low : Nat) : ℚ :=
  let penalty := (critical : ℚ) * (1 / 5) + (high : ℚ) * (1 / 10) +
    (medium : ℚ) * (1 / 20) + (low : ℚ) * (1 / 50)
  max 0 (1 - min 1 penalty)

/-- `ConfidenceScorer.assess`: the (score, label) pair, with the four
components weighted by the configured weights (each key is present in the
configuration dictionary, so the scorer's `.get` fallbacks never fire). -/
def assess (c : ValidationConfig) (result : OCRResult) (report : ValidationReport)
    (signals : List RiskSignal) : ℚ × String :=
  let counts := severityCounts signals
  let components : List (Option ℚ × ℚ) :=
    [(some (engine_confidence result), c.w_engine_quality),
     (some (field_completeness result), c.w_field_completeness),
     (some report.rule_pass_rate, c.w_rule_consistency),
     (some (risk_signal_score counts.1 counts.2.1 counts.2.2.1 counts.2.2.2),
       c.w_risk_signals)]
  let score := weighted_score components
  (score, scorer_label score)

/-- `BankStatementPipeline.process`, confidence step: `calculate_summary`
has already run, and the risk-signal summary comes from `detect_signals`. -/
def pipeline_assess (c : ValidationConfig) (today : CalDate) (result : OCRResult) :
    ℚ × String :=
  assess c result (pipeline_process today result) (detect_signals c result)

/-- `error_pattern_db.py`: `ErrorPattern`. -/
structure ErrorPattern where
  name : String
  description : String
  severity : String
  field : String
  pattern_type : String
  pattern_value : String
  fix_suggestion : String
deriving DecidableEq, Repr

/-- `error_pattern_db.py`: `PatternMatch`. -/
structure PatternMatch where
  pattern_name : String
  row : Nat
  field : String
  value : String
  severity : String
  message : String
  fix_suggestion : String
deriving DecidableEq, Repr

/-- `ErrorPatternDatabase._get_default_patterns`: the built-in catalog. -/
def default_patterns : List ErrorPattern :=
  [{ name := "bracket_negative_misread",
     description := "Bracketed negative number possibly misread as positive",
     severity := "HIGH", field := "amount_raw", pattern_type := "format_check",
     pattern_value := "has_parentheses", fix_suggestion := "Verify amount is negative" },
   { name := "dollar_sign_missing", description := "Amount missing dollar sign",
     severity := "MEDIUM", field := "amount_raw", pattern_type := "format_check",
     pattern_value := "missing_dollar_sign", fix_suggestion := "Verify amount parsing" },
   { name := "comma_decimal_confusion",
     description := "Comma possibly misread as decimal point",
     severity := "HIGH", field := "amount_raw", pattern_type := "format_check",
     pattern_value := "has_comma_as_decimal",
     fix_suggestion := "Check if European format (1.234,56)" },
   { name := "date_ambiguity", description := "Date format ambiguous (MM/DD vs DD/MM)",
     severity := "MEDIUM", field := "date_raw", pattern_type := "format_check",
     pattern_value := "ambiguous_date", fix_suggestion := "Verify month/day order" },
   { name := "zero_o_confusion", description := "Letter O possibly confused with zero",
     severity := "HIGH", field := "amount_raw", pattern_type := "format_check",
     pattern_value := "has_letter_o", fix_suggestion := "Check if O should be 0" },
   { name := "one_l_confusion", description := "Letter l possibly confused with 1",
     severity := "HIGH", field := "amount_raw", pattern_type := "format_check",
     pattern_value := "has_letter_l", fix_suggestion := "Check if l should be 1" },
   { name := "negative_deposit", description := "Deposit amount is negative",
     severity := "CRITICAL", field := "amount", pattern_type := "value_check",
     pattern_value := "negative", fix_suggestion := "Deposits should be positive" }]

/-- Heterogeneous field value returned by `_get_field_value`. -/
inductive FieldValue where
  | str (s : String)
  | num (d : Decimal)
  | date (dt : CalDate)
deriving DecidableEq, Repr

/-- `str()` of a field value. -/
def FieldValue.toDisplay : FieldValue → String
  | .str s => s
  | .num d => d.toDisplay
  | .date dt => dt.isoString

/-- `ErrorPatternDatabase._get_field_value`. -/
def get_field_value (row : TransactionRow) (f : String) : Option FieldValue :=
  if f = "amount" then
    match row.deposit with
    | some d => some (.num d)
    | none => row.withdrawal.map .num
  else if f = "amount_raw" then some (.str row.amount_raw)
  else if f = "date" then row.transaction_date.map .date
  else if f = "date_raw" then some (.str row.date_raw)
  else if f = "description" then some (.str row.description)
  else if f = "balance" then row.balance.map .num
  else none

/-- The `ambiguous_date` format check: Python
`re.match` of `^\d{1,2}/\d{1,2}/\d{4}$` (because each digit run is followed
by a non-digit or the end, greedy matching coincides with taking the
maximal digit run). -/
def ambiguousDate (cs : List Char) : Bool :=
  let p1 := cs.span Char.isDigit
  match p1.2 with
  | '/' :: r1 =>
    let p2 := r1.span Char.isDigit
    (match p2.2 with
     | '/' :: r2 =>
       let p3 := r2.span Char.isDigit
       decide (1 ≤ p1.1.length) && decide (p1.1.length ≤ 2) &&
         decide (1 ≤ p2.1.length) && decide (p2.1.length ≤ 2) &&
         decide (p3.1.length = 4) && p3.2.isEmpty
     | _ => false)
  | _ => false

/-- `ErrorPatternDatabase._check_format`. -/
def check_format (value : String) (format_type : String) : Bool :=
  if format_type = "has_parentheses" then
    value.toList.contains '(' && value.toList.contains ')'
  else if format_type = "missing_dollar_sign" then !value.toList.contains '$'
  else if format_type = "has_comma_as_decimal" then
    value.toList.contains ',' && !value.toList.contains '.'
  else if format_type = "ambiguous_date" then ambiguousDate value.toList
  else if format_type = "has_letter_o" then (value.toList.map Char.toUpper).contains 'O'
  else if format_type = "has_letter_l" then (value.toList.map Char.toLower).contains 'l'
  else false

/-- `ErrorPatternDatabase._check_value` (dates and strings are not
numeric, so only `num` values compare below zero). -/
def check_value (fv : FieldValue) (check_type : String) : Bool :=
  if check_type = "negative" then
    match fv with
    | .num d => decide (d.val < 0)
    | _ => false
  else false

/-- `ErrorPatternDatabase._match_pattern`.  The default catalog contains no
`regex`-kind pattern, so the regular-expression search (not modelled) is
unreachable here and that branch reports no match. -/
def match_pattern (p : ErrorPattern) (row : TransactionRow) (row_idx : Nat) :
    List PatternMatch :=
  match get_field_value row p.field with
  | none => []
  | some fv =>
    let is_match :=
      if p.pattern_type = "regex" then false
      else if p.pattern_type = "format_check" then
        check_format fv.toDisplay p.pattern_value
      else if p.pattern_type = "value_check" then check_value fv p.pattern_value
      else false
    if is_match then
      [{ pattern_name := p.name, row := row_idx, field := p.field,
         value := fv.toDisplay, severity := p.severity,
         message := p.description ++ ": " ++ fv.toDisplay,
         fix_suggestion := p.fix_suggestion }]
    else []

/-- The matches of all patterns against one row. -/
def rowMatches (patterns : List ErrorPattern) (row : TransactionRow) (row_idx : Nat) :
    List PatternMatch :=
  (patterns.map fun p => match_pattern p row row_idx).flatten

/-- The row loop of `ErrorPatternDatabase.match`, carrying the row index. -/
def matchRowsAux (patterns : List ErrorPattern) : Nat → List TransactionRow → List PatternMatch
  | _, [] => []
  | idx, row :: rest => rowMatches patterns row idx ++ matchRowsAux patterns (idx + 1) rest

/-- `ErrorPatternDatabase.match`. -/
def pattern_db_match (patterns : List ErrorPattern) (result : OCRResult) :
    List PatternMatch :=
  matchRowsAux patterns 0 result.rows

lemma countP_severity_pos (l : List RuleViolation) (s : String) :
    0 < l.countP (fun v => v.severity == s) ↔ ∃ v ∈ l, v.severity = s := by
  simp [List.countP_pos_iff]

/-- C1: after `calculate_summary`, the verdict status is `NEEDS_REVIEW` when
any violation is CRITICAL; otherwise `REVIEW_RECOMMENDED` when any violation
is HIGH or `failed_checks` exceeds 10% of (the reconciled) `total_checks`;
otherwise `APPROVED`.  In particular any CRITICAL violation forces
`NEEDS_REVIEW`, and the status does not depend on the confidence score. -/
theorem claim1_status_derivation (r : ValidationReport) :
    ((calculate_summary r).validation_status =
      if ∃ v ∈ r.rule_violations, v.severity = "CRITICAL" then "NEEDS_REVIEW"
      else if (∃ v ∈ r.rule_violations, v.severity = "HIGH") ∨
          ((calculate_summary r).total_checks : ℚ) * (1 / 10) < (r.failed_checks : ℚ)
        then "REVIEW_RECOMMENDED"
      else "APPROVED") ∧
    ((∃ v ∈ r.rule_violations, v.severity = "CRITICAL") →
      (calculate_summary r).validation_status = "NEEDS_REVIEW") ∧
    (∀ q : ℚ,
      (calculate_summary { r with overall_confidence := q }).validation_status =
        (calculate_summary r).validation_status) := by
  refine ⟨?_, ?_, ?_⟩
  · simp only [calculate_summary, ← countP_severity_pos]
  · intro h
    simp only [calculate_summary]
    rw [if_pos ((countP_severity_pos _ _).2 h)]
  · intro q
    simp only [calculate_summary]

/-- Witness for C1 at a concrete report with one CRITICAL violation. -/
theorem claim1_status_derivation_witness :
    (calculate_summary
      { validation_status := "APPROVED"
        rule_violations := [{ rule := "NO_ROWS", severity := "CRITICAL" }]
        total_checks := 1, failed_checks := 1 }).validation_status = "NEEDS_REVIEW" :=
  (claim1_status_derivation _).2.1
    ⟨{ rule := "NO_ROWS", severity := "CRITICAL" }, by simp, rfl⟩

/-- C2: the report emitted by the pipeline satisfies
`passed_checks + failed_checks ≤ total_checks`, `failed_checks` is the
number of rule violations, and `passed_checks` is non-negative (it is a
natural number, matching `max(total - failed, 0)`); the bound holds even
when the violation count exceeds the `count_checks` estimate, because
`calculate_summary` raises `total_checks` to the sum in that case. -/
theorem claim2_total_checks_bound (today : CalDate) (result : OCRResult) :
    (pipeline_process today result).passed_checks +
        (pipeline_process today result).failed_checks ≤
      (pipeline_process today result).total_checks ∧
    (pipeline_process today result).failed_checks = (validate today result).length ∧
    0 ≤ (pipeline_process today result).passed_checks := by
  unfold pipeline_process calculate_summary
  refine ⟨?_, by simp, Nat.zero_le _⟩
  simp only
  split_ifs <;> omega

lemma runPairCheck_row (i : Nat) (p c : TransactionRow) :
    ∀ v ∈ runPairCheck i p c, v.row = some i := by
  intro v hv
  unfold runPairCheck at hv
  split at hv
  · dsimp only at hv
    split at hv
    · simp only [List.mem_singleton] at hv
      subst hv; rfl
    · simp at hv
  · simp at hv

lemma runPairCheck_filter_self (i : Nat) (p c : TransactionRow) :
    (runPairCheck i p c).filter (fun v => decide (v.row = some i)) = runPairCheck i p c :=
  List.filter_eq_self.2 fun v hv => by simp [runPairCheck_row i p c v hv]

lemma runPairCheck_filter_ne (i j : Nat) (p c : TransactionRow) (h : i ≠ j) :
    (runPairCheck j p c).filter (fun v => decide (v.row = some i)) = [] := by
  rw [List.filter_eq_nil_iff]
  intro v hv
  simp [runPairCheck_row j p c v hv, Ne.symm h]

/-- The running-balance check for an optional pair of rows. -/
def pairViol (i : Nat) : Option TransactionRow → Option TransactionRow → List RuleViolation
  | some p, some c => runPairCheck i p c
  | _, _ => []

lemma runningBalanceAux_filter (i : Nat) :
    ∀ (rest : List TransactionRow) (k : Nat) (prev : TransactionRow),
      (runningBalanceAux k prev rest).filter (fun v => decide (v.row = some i)) =
        if k ≤ i then pairViol i (prev :: rest)[i - k]? rest[i - k]? else [] := by
  intro rest
  induction rest with
  | nil =>
    intro k prev
    split
    · cases h : (prev :: ([] : List TransactionRow))[i - k]? <;>
        simp [runningBalanceAux, pairViol, h]
    · simp [runningBalanceAux]
  | cons c r' ih =>
    intro k prev
    simp only [runningBalanceAux, List.filter_append]
    rcases Nat.lt_trichotomy i k with hik | hik | hik
    · rw [runPairCheck_filter_ne i k prev c (Nat.ne_of_lt hik), ih (k + 1) c,
        if_neg (by omega), if_neg (by omega)]
      simp
    · subst hik
      rw [runPairCheck_filter_self, ih (i + 1) c, if_neg (by omega), if_pos (le_refl i)]
      simp [Nat.sub_self, pairViol]
    · rw [runPairCheck_filter_ne i k prev c (by omega), ih (k + 1) c,
        if_pos (by omega), if_pos (by omega)]
      have hm : i - k = (i - (k + 1)) + 1 := by omega
      rw [hm]
      simp

/-- C3: for an adjacent pair of rows at positions `i-1`, `i` whose balances
are both present, `validate_running_balance` emits exactly one CRITICAL
`RUNNING_BALANCE_MISMATCH` violation for row `i` — carrying the expected
balance `prev.balance + deposit (or 0) − withdrawal (or 0)`, the actual
balance, and their absolute difference — when that difference exceeds the
tolerance `0.02`, and no violation for row `i` otherwise. -/
theorem claim3_running_balance (result : OCRResult) (i : Nat)
    (prev curr : TransactionRow) (hi : 1 ≤ i)
    (hprev : result.rows[i - 1]? = some prev) (hcurr : result.rows[i]? = some curr)
    (pb cb : Decimal) (hpb : prev.balance = some pb) (hcb : curr.balance = some cb) :
    (validate_running_balance result).filter (fun v => decide (v.row = some i)) =
      if (2 / 100 : ℚ) <
          |pb.val + (match curr.deposit with | some d => d.val | none => 0) -
              (match curr.withdrawal with | some w => w.val | none => 0) - cb.val| then
        [{ rule := "RUNNING_BALANCE_MISMATCH", severity := "CRITICAL", row := some i,
           expected := some (pb.val +
             (match curr.deposit with | some d => d.val | none => 0) -
             (match curr.withdrawal with | some w => w.val | none => 0)),
           actual := some cb.val,
           difference := some (|pb.val +
             (match curr.deposit with | some d => d.val | none => 0) -
             (match curr.withdrawal with | some w => w.val | none => 0) - cb.val|) }]
      else [] := by
  rcases hr : result.rows with _ | ⟨r0, rest⟩
  · rw [hr] at hcurr; simp at hcurr
  · unfold validate_running_balance
    rw [hr, runningBalanceAux_filter i rest 1 r0, if_pos hi]
    have h1 : (r0 :: rest)[i - 1]? = some prev := by rw [← hr]; exact hprev
    have h2 : rest[i - 1]? = some curr := by
      have hx : (r0 :: rest)[i]? = some curr := by rw [← hr]; exact hcurr
      rwa [show i = (i - 1) + 1 by omega, List.getElem?_cons_succ] at hx
    rw [h1, h2]
    show runPairCheck i prev curr = _
    unfold runPairCheck
    rw [hpb, hcb]
    simp only [tolerance]

/-- Row with balance 100.00 (witness data for C3). -/
def c3rowPrev : TransactionRow :=
  { transaction_date := none, description := "", balance := some ⟨10000, -2⟩ }

/-- Row with deposit 50.00, withdrawal 0, balance 150.03 (witness data). -/
def c3rowHigh : TransactionRow :=
  { transaction_date := none, description := "", deposit := some ⟨5000, -2⟩,
    withdrawal := some ⟨0, -2⟩, balance := some ⟨15003, -2⟩ }

/-- Row with deposit 50.00, withdrawal 0, balance 150.01 (witness data). -/
def c3rowOk : TransactionRow :=
  { transaction_date := none, description := "", deposit := some ⟨5000, -2⟩,
    withdrawal := some ⟨0, -2⟩, balance := some ⟨15001, -2⟩ }

/-- Table with balances 100.00 then 150.03 (witness data). -/
def c3resHigh : OCRResult := { rows := [c3rowPrev, c3rowHigh] }

/-- Table with balances 100.00 then 150.01 (witness data). -/
def c3resOk : OCRResult := { rows := [c3rowPrev, c3rowOk] }

/-- Witness for C3: difference 0.03 yields exactly the one expected
violation (expected 150.00, actual 150.03, difference 0.03); difference
0.01 yields none. -/
theorem claim3_running_balance_witness :
    (validate_running_balance c3resHigh).filter (fun v => decide (v.row = some 1)) =
      [{ rule := "RUNNING_BALANCE_MISMATCH", severity := "CRITICAL", row := some 1,
         expected := some 150, actual := some (15003 / 100),
         difference := some (3 / 100) }] ∧
    (validate_running_balance c3resOk).filter (fun v => decide (v.row = some 1)) = [] := by
  constructor
  · have h := claim3_running_balance c3resHigh 1 c3rowPrev c3rowHigh (le_refl 1)
      rfl rfl ⟨10000, -2⟩ ⟨15003, -2⟩ rfl rfl
    rw [h]
    have habs : |(⟨10000, -2⟩ : Decimal).val +
        (match c3rowHigh.deposit with | some d => d.val | none => 0) -
        (match c3rowHigh.withdrawal with | some w => w.val | none => 0) -
        (⟨15003, -2⟩ : Decimal).val| = 3 / 100 := by
      rw [show c3rowHigh.deposit = some ⟨5000, -2⟩ from rfl,
        show c3rowHigh.withdrawal = some ⟨0, -2⟩ from rfl]
      rw [abs_of_nonpos (by norm_num [Decimal.val, Int.toNat])]
      norm_num [Decimal.val, Int.toNat]
    rw [habs]
    norm_num [c3rowHigh, Decimal.val, Int.toNat]
  · have h := claim3_running_balance c3resOk 1 c3rowPrev c3rowOk (le_refl 1)
      rfl rfl ⟨10000, -2⟩ ⟨15001, -2⟩ rfl rfl
    rw [h]
    have habs : |(⟨10000, -2⟩ : Decimal).val +
        (match c3rowOk.deposit with | some d => d.val | none => 0) -
        (match c3rowOk.withdrawal with | some w => w.val | none => 0) -
        (⟨15001, -2⟩ : Decimal).val| = 1 / 100 := by
      rw [show c3rowOk.deposit = some ⟨5000, -2⟩ from rfl,
        show c3rowOk.withdrawal = some ⟨0, -2⟩ from rfl]
      rw [abs_of_nonpos (by norm_num [Decimal.val, Int.toNat])]
      norm_num [Decimal.val, Int.toNat]
    rw [habs]
    norm_num

lemma amountRowChecks_row (idx : Nat) (row : TransactionRow) :
    ∀ v ∈ amountRowChecks idx row, v.row = some idx := by
  intro v hv
  unfold amountRowChecks at hv
  rcases hd : row.deposit with _ | d <;> rcases hw : row.withdrawal with _ | w <;>
    rcases hb : row.balance with _ | b <;>
    simp [hd, hw, hb] at hv <;> aesop

lemma amountRowChecks_filter_self (idx : Nat) (row : TransactionRow) :
    (amountRowChecks idx row).filter (fun v => decide (v.row = some idx)) =
      amountRowChecks idx row :=
  List.filter_eq_self.2 fun v hv => by simp [amountRowChecks_row idx row v hv]

lemma amountRowChecks_filter_ne (i idx : Nat) (row : TransactionRow) (h : i ≠ idx) :
    (amountRowChecks idx row).filter (fun v => decide (v.row = some i)) = [] := by
  rw [List.filter_eq_nil_iff]
  intro v hv
  simp [amountRowChecks_row idx row v hv, Ne.symm h]

/-- The amount-format checks for an optional row. -/
def rowViol (i : Nat) : Option TransactionRow → List RuleViolation
  | some row => amountRowChecks i row
  | none => []

lemma amountFormatAux_filter (i : Nat) :
    ∀ (rows : List TransactionRow) (k : Nat),
      (amountFormatAux k rows).filter (fun v => decide (v.row = some i)) =
        if k ≤ i then rowViol i rows[i - k]? else [] := by
  intro rows
  induction rows with
  | nil => intro k; split <;> simp [amountFormatAux, rowViol]
  | cons row rest ih =>
    intro k
    simp only [amountFormatAux, List.filter_append]
    rcases Nat.lt_trichotomy i k with hik | hik | hik
    · rw [amountRowChecks_filter_ne i k row (Nat.ne_of_lt hik), ih (k + 1),
        if_neg (by omega), if_neg (by omega)]
      simp
    · subst hik
      rw [amountRowChecks_filter_self, ih (i + 1), if_neg (by omega), if_pos (le_refl i)]
      simp [Nat.sub_self, rowViol]
    · rw [amountRowChecks_filter_ne i k row (by omega), ih (k + 1),
        if_pos (by omega), if_pos (by omega)]
      have hm : i - k = (i - (k + 1)) + 1 := by omega
      rw [hm]
      simp

lemma is_valid_currency_spec (d : Decimal) :
    is_valid_currency d = true ↔ (d.exp.natAbs ≤ 2 ∧ |d.val| ≤ 1000000) := by
  unfold is_valid_currency
  split_ifs with h1 h2
  · simp only [Bool.false_eq_true, false_iff]
    rintro ⟨ha, _⟩
    omega
  · simp only [Bool.false_eq_true, false_iff]
    rintro ⟨_, hb⟩
    linarith
  · simp only [true_iff]
    exact ⟨by omega, le_of_not_lt h2⟩

lemma invalid_if_flip (d : Decimal) (l : List RuleViolation) :
    (if is_valid_currency d then [] else l) =
      (if 2 < d.exp.natAbs ∨ (1000000 : ℚ) < |d.val| then l else []) := by
  cases hv : is_valid_currency d
  · have hc := is_valid_currency_spec d
    rw [hv] at hc
    simp only [Bool.false_eq_true, false_iff] at hc
    have hcond : 2 < d.exp.natAbs ∨ (1000000 : ℚ) < |d.val| := by
      rcases not_and_or.1 hc with h | h
      · exact Or.inl (by omega)
      · exact Or.inr (lt_of_not_le h)
    rw [if_neg (by simp), if_pos hcond]
  · have hc := (is_valid_currency_spec d).1 hv
    rw [if_pos rfl, if_neg ?_]
    rintro (h | h)
    · omega
    · linarith [hc.2]

lemma amountRowChecks_invalid_deposit (idx : Nat) (row : TransactionRow) :
    (amountRowChecks idx row).filter
        (fun v => decide (v.rule = "INVALID_AMOUNT_FORMAT" ∧ v.field = some "deposit")) =
      (match row.deposit with
       | some d => if is_valid_currency d then []
           else [{ rule := "INVALID_AMOUNT_FORMAT", severity := "CRITICAL",
                   row := some idx, field := some "deposit" }]
       | none => []) := by
  unfold amountRowChecks
  rcases hd : row.deposit with _ | d <;> rcases hw : row.withdrawal with _ | w <;>
    rcases hb : row.balance with _ | b <;>
    simp [hd, hw, hb, List.filter_append] <;>
    (try (split_ifs <;> simp_all)) <;> (try simp_all) <;> aesop

lemma amountRowChecks_invalid_withdrawal (idx : Nat) (row : TransactionRow) :
    (amountRowChecks idx row).filter
        (fun v => decide (v.rule = "INVALID_AMOUNT_FORMAT" ∧ v.field = some "withdrawal")) =
      (match row.withdrawal with
       | some w => if is_valid_currency w then []
           else [{ rule := "INVALID_AMOUNT_FORMAT", severity := "CRITICAL",
                   row := some idx, field := some "withdrawal" }]
       | none => []) := by
  unfold amountRowChecks
  rcases hd : row.deposit with _ | d <;> rcases hw : row.withdrawal with _ | w <;>
    rcases hb : row.balance with _ | b <;>
    simp [hd, hw, hb, List.filter_append] <;>
    (try (split_ifs <;> simp_all)) <;> (try simp_all) <;> aesop

lemma amountRowChecks_invalid_balance (idx : Nat) (row : TransactionRow) :
    (amountRowChecks idx row).filter
        (fun v => decide (v.rule = "INVALID_AMOUNT_FORMAT" ∧ v.field = some "balance")) =
      (match row.balance with
       | some b => if is_valid_currency b then []
           else [{ rule := "INVALID_AMOUNT_FORMAT", severity := "CRITICAL",
                   row := some idx, field := some "balance" }]
       | none => []) := by
  unfold amountRowChecks
  rcases hd : row.deposit with _ | d <;> rcases hw : row.withdrawal with _ | w <;>
    rcases hb : row.balance with _ | b <;>
    simp [hd, hw, hb, List.filter_append] <;>
    (try (split_ifs <;> simp_all)) <;> (try simp_all) <;> aesop

lemma filter_row_then (idx : Nat) (f : String) (l : List RuleViolation) :
    l.filter (fun v => decide (v.row = some idx ∧
        v.rule = "INVALID_AMOUNT_FORMAT" ∧ v.field = some f)) =
      (l.filter (fun v => decide (v.row = some idx))).filter
        (fun v => decide (v.rule = "INVALID_AMOUNT_FORMAT" ∧ v.field = some f)) := by
  rw [List.filter_filter]
  apply List.filter_congr
  intro v _
  by_cases h1 : v.row = some idx <;>
    by_cases h2 : v.rule = "INVALID_AMOUNT_FORMAT" ∧ v.field = some f <;>
    simp [h1, h2]

/-- C4 (amended): for a row and a present monetary field, a CRITICAL
`INVALID_AMOUNT_FORMAT` violation tagged with that field is emitted exactly
once if and only if the field value fails the currency check — its
representation exponent has magnitude greater than 2, or its magnitude is
strictly greater than 1,000,000 (so a value of exactly 1,000,000 passes). -/
theorem claim4_amount_format (result : OCRResult) (idx : Nat) (row : TransactionRow)
    (hrow : result.rows[idx]? = some row) :
    ((validate_amount_format result).filter
        (fun v => decide (v.row = some idx ∧
          v.rule = "INVALID_AMOUNT_FORMAT" ∧ v.field = some "deposit")) =
      (match row.deposit with
       | some d =>
         if 2 < d.exp.natAbs ∨ (1000000 : ℚ) < |d.val| then
           [{ rule := "INVALID_AMOUNT_FORMAT", severity := "CRITICAL",
              row := some idx, field := some "deposit" }]
         else []
       | none => [])) ∧
    ((validate_amount_format result).filter
        (fun v => decide (v.row = some idx ∧
          v.rule = "INVALID_AMOUNT_FORMAT" ∧ v.field = some "withdrawal")) =
      (match row.withdrawal with
       | some w =>
         if 2 < w.exp.natAbs ∨ (1000000 : ℚ) < |w.val| then
           [{ rule := "INVALID_AMOUNT_FORMAT", severity := "CRITICAL",
              row := some idx, field := some "withdrawal" }]
         else []
       | none => [])) ∧
    ((validate_amount_format result).filter
        (fun v => decide (v.row = some idx ∧
          v.rule = "INVALID_AMOUNT_FORMAT" ∧ v.field = some "balance")) =
      (match row.balance with
       | some b =>
         if 2 < b.exp.natAbs ∨ (1000000 : ℚ) < |b.val| then
           [{ rule := "INVALID_AMOUNT_FORMAT", severity := "CRITICAL",
              row := some idx, field := some "balance" }]
         else []
       | none => [])) := by
  have hbase : (validate_amount_format result).filter
      (fun v => decide (v.row = some idx)) = amountRowChecks idx row := by
    show (amountFormatAux 0 result.rows).filter _ = _
    rw [amountFormatAux_filter idx result.rows 0, if_pos (Nat.zero_le idx)]
    rw [Nat.sub_zero, hrow]
    rfl
  refine ⟨?_, ?_, ?_⟩
  · rw [filter_row_then, hbase, amountRowChecks_invalid_deposit]
    rcases hd : row.deposit with _ | d <;> simp [invalid_if_flip]
  · rw [filter_row_then, hbase, amountRowChecks_invalid_withdrawal]
    rcases hw : row.withdrawal with _ | w <;> simp [invalid_if_flip]
  · rw [filter_row_then, hbase, amountRowChecks_invalid_balance]
    rcases hb : row.balance with _ | b <;> simp [invalid_if_flip]

/-- Row whose deposit is exactly 1,000,000.00 (counterexample data). -/
def c4row : TransactionRow :=
  { transaction_date := none, description := "", deposit := some ⟨100000000, -2⟩ }

/-- Table containing only `c4row`. -/
def c4res : OCRResult := { rows := [c4row] }

/-- Counterexample to C4 as stated: the deposit 1,000,000.00 has magnitude
≥ 1,000,000, yet `validate_amount_format` emits no violation at all,
because the code rejects only magnitudes strictly above 1,000,000. -/
theorem claim4_counterexample :
    c4res.rows[0]? = some c4row ∧
    c4row.deposit = some ⟨100000000, -2⟩ ∧
    (1000000 : ℚ) ≤ |(Decimal.mk 100000000 (-2)).val| ∧
    validate_amount_format c4res = [] := by
  have habs : |(Decimal.mk 100000000 (-2)).val| = 1000000 := by
    rw [abs_of_nonneg (by norm_num [Decimal.val, Int.toNat])]
    norm_num [Decimal.val, Int.toNat]
  refine ⟨rfl, rfl, by rw [habs], ?_⟩
  show amountFormatAux 0 [c4row] = []
  simp only [amountFormatAux, amountRowChecks, c4row]
  have hval : is_valid_currency ⟨100000000, -2⟩ = true := by
    unfold is_valid_currency
    rw [if_neg (by decide), if_neg (by rw [habs]; exact lt_irrefl _)]
  simp [hval]

/-- Row whose deposit 12.345 has three fractional digits (witness data). -/
def c4rowBad : TransactionRow :=
  { transaction_date := none, description := "", deposit := some ⟨12345, -3⟩ }

/-- Table containing only `c4rowBad`. -/
def c4resBad : OCRResult := { rows := [c4rowBad] }

/-- Witness for the amended C4: the deposit of exactly 1,000,000.00
produces no `INVALID_AMOUNT_FORMAT` violation, while a deposit of 12.345
(three fractional digits) produces exactly one. -/
theorem claim4_amount_format_witness :
    (validate_amount_format c4res).filter
        (fun v => decide (v.row = some 0 ∧
          v.rule = "INVALID_AMOUNT_FORMAT" ∧ v.field = some "deposit")) = [] ∧
    (validate_amount_format c4resBad).filter
        (fun v => decide (v.row = some 0 ∧
          v.rule = "INVALID_AMOUNT_FORMAT" ∧ v.field = some "deposit")) =
      [{ rule := "INVALID_AMOUNT_FORMAT", severity := "CRITICAL",
         row := some 0, field := some "deposit" }] := by
  have habs : |(Decimal.mk 100000000 (-2)).val| = 1000000 := by
    rw [abs_of_nonneg (by norm_num [Decimal.val, Int.toNat])]
    norm_num [Decimal.val, Int.toNat]
  constructor
  · have h := (claim4_amount_format c4res 0 c4row rfl).1
    rw [h]
    simp only [c4row]
    rw [if_neg ?_]
    rintro (hc | hc)
    · exact absurd hc (by decide)
    · rw [habs] at hc
      exact lt_irrefl _ hc
  · have h := (claim4_amount_format c4resBad 0 c4rowBad rfl).1
    rw [h]
    simp only [c4rowBad]
    rw [if_pos (Or.inl (by decide))]

lemma dateRowChecks_len_none (today : CalDate) (idx : Nat) (row : TransactionRow) :
    (dateRowChecks today none idx row).length ≤ 1 := by
  unfold dateRowChecks
  rcases row.transaction_date with _ | d
  · simp
  · dsimp only
    split_ifs <;> simp

lemma dateRowChecks_len_some (today : CalDate) (p : TransactionRow) (idx : Nat)
    (row : TransactionRow) : (dateRowChecks today (some p) idx row).length ≤ 2 := by
  unfold dateRowChecks
  rcases row.transaction_date with _ | d
  · simp
  · dsimp only
    rcases hp : p.transaction_date with _ | pd <;> simp only [hp] <;>
      split_ifs <;> simp

lemma dateRangeAux_len (today : CalDate) :
    ∀ (rows : List TransactionRow) (p : TransactionRow) (idx : Nat),
      (dateRangeAux today (some p) idx rows).length ≤ 2 * rows.length := by
  intro rows
  induction rows with
  | nil => intro p idx; simp [dateRangeAux]
  | cons row rest ih =>
    intro p idx
    simp only [dateRangeAux, List.length_append, List.length_cons]
    have h1 := dateRowChecks_len_some today p idx row
    have h2 := ih row (idx + 1)
    omega

lemma validate_date_range_len (today : CalDate) (result : OCRResult) :
    (validate_date_range today result).length ≤
      result.rows.length + (result.rows.length - 1) := by
  unfold validate_date_range
  rcases result.rows with _ | ⟨r, rest⟩
  · simp [dateRangeAux]
  · simp only [dateRangeAux, List.length_append, List.length_cons]
    have h1 := dateRowChecks_len_none today 0 r
    have h2 := dateRangeAux_len today rest r (0 + 1)
    omega

lemma amountRowChecks_len (idx : Nat) (row : TransactionRow) :
    (amountRowChecks idx row).length ≤ 1 + presentCount row := by
  unfold amountRowChecks presentCount
  rcases hd : row.deposit with _ | d <;> rcases hw : row.withdrawal with _ | w <;>
    rcases hb : row.balance with _ | b <;>
    simp [hd, hw, hb] <;> (try split_ifs) <;> simp

lemma amountFormatAux_len :
    ∀ (rows : List TransactionRow) (idx : Nat),
      (amountFormatAux idx rows).length ≤ rows.length + fieldChecksCount rows := by
  intro rows
  induction rows with
  | nil => intro idx; simp [amountFormatAux, fieldChecksCount]
  | cons row rest ih =>
    intro idx
    simp only [amountFormatAux, fieldChecksCount, List.length_append, List.length_cons]
    have h1 := amountRowChecks_len idx row
    have h2 := ih (idx + 1)
    omega

lemma runPairCheck_len (i : Nat) (p c : TransactionRow) :
    (runPairCheck i p c).length ≤
      if p.balance.isSome && c.balance.isSome then 1 else 0 := by
  unfold runPairCheck
  rcases hp : p.balance with _ | pb <;> rcases hc : c.balance with _ | cb <;>
    simp [hp, hc] <;> (try split_ifs) <;> simp

lemma runningBalanceAux_len :
    ∀ (rest : List TransactionRow) (i : Nat) (prev : TransactionRow),
      (runningBalanceAux i prev rest).length ≤ balancePairsAux prev rest := by
  intro rest
  induction rest with
  | nil => intro i prev; simp [runningBalanceAux, balancePairsAux]
  | cons c r' ih =>
    intro i prev
    simp only [runningBalanceAux, balancePairsAux, List.length_append]
    have h1 := runPairCheck_len i prev c
    have h2 := ih (i + 1) c
    split_ifs at h1 ⊢ <;> omega

lemma validate_running_balance_len (result : OCRResult) :
    (validate_running_balance result).length ≤ balancePairsCount result.rows := by
  unfold validate_running_balance balancePairsCount
  rcases result.rows with _ | ⟨r, rest⟩
  · simp
  · exact runningBalanceAux_len rest 1 r

lemma validate_overall_balance_len (result : OCRResult) :
    (validate_overall_balance result).length ≤
      if result.opening_balance.isSome && result.closing_balance.isSome then 1
      else 0 := by
  unfold validate_overall_balance
  rcases ho : result.opening_balance with _ | ob <;>
    rcases hc : result.closing_balance with _ | cb <;>
    simp [ho, hc] <;> (try split_ifs) <;> simp

lemma fieldChecksCount_eq_sum (rows : List TransactionRow) :
    fieldChecksCount rows = (rows.map presentCount).sum := by
  induction rows with
  | nil => simp [fieldChecksCount]
  | cons row rest ih => simp [fieldChecksCount, ih]

lemma balancePairsAux_eq_countP :
    ∀ (rest : List TransactionRow) (prev : TransactionRow),
      balancePairsAux prev rest =
        ((prev :: rest).zip rest).countP
          (fun p => p.1.balance.isSome && p.2.balance.isSome) := by
  intro rest
  induction rest with
  | nil => intro prev; simp [balancePairsAux]
  | cons c r' ih =>
    intro prev
    simp only [balancePairsAux, List.zip_cons_cons, List.countP_cons, ih c]
    split_ifs <;> omega

/-- C7: for a non-empty table, `count_checks` is exactly one date check per
row, plus one monotonicity check per adjacent pair, plus one
amount-presence check per row, plus one format check per present monetary
field, plus one running-balance check per adjacent pair with both balances
present, plus one overall-balance check when both opening and closing
balances are present; and for every table the number of violations
returned by `validate` never exceeds `count_checks`. -/
theorem claim7_count_checks (today : CalDate) (result : OCRResult) :
    (result.rows ≠ [] →
      count_checks result =
        result.rows.length + (result.rows.length - 1) + result.rows.length +
          (result.rows.map presentCount).sum +
          ((result.rows.zip result.rows.tail).countP
            fun p => p.1.balance.isSome && p.2.balance.isSome) +
          (if result.opening_balance.isSome ∧ result.closing_balance.isSome then 1
           else 0)) ∧
    (validate today result).length ≤ count_checks result := by
  constructor
  · intro hne
    rcases hr : result.rows with _ | ⟨r, rest⟩
    · exact absurd hr hne
    · unfold count_checks
      rw [hr, if_neg (by simp)]
      rw [fieldChecksCount_eq_sum, show balancePairsCount (r :: rest) =
        balancePairsAux r rest from rfl, balancePairsAux_eq_countP rest r]
      have htail : (r :: rest).tail = rest := rfl
      rw [htail]
      have hif : (if result.opening_balance.isSome && result.closing_balance.isSome
          then 1 else 0) =
          (if result.opening_balance.isSome ∧ result.closing_balance.isSome then 1
           else 0) := by
        split_ifs <;> simp_all
      rw [hif]
      simp only [List.length_cons]
      split_ifs <;> omega
  · by_cases hres : result.rows = []
    · simp [validate, count_checks, hres]
    · rw [validate, count_checks, if_neg hres, if_neg hres]
      simp only [List.length_append]
      have h1 := validate_date_range_len today result
      have h2 : (validate_amount_format result).length ≤
          result.rows.length + fieldChecksCount result.rows :=
        amountFormatAux_len result.rows 0
      have h3 := validate_running_balance_len result
      have h4 := validate_overall_balance_len result
      split_ifs at h4 ⊢ <;> omega

/-- Row with a deposit and no date (witness data for C7). -/
def c7row : TransactionRow :=
  { transaction_date := none, description := "", deposit := some ⟨1000, -2⟩ }

/-- One-row table (witness data for C7). -/
def c7res : OCRResult := { rows := [c7row] }

/-- Witness for C7 at a one-row table. -/
theorem claim7_count_checks_witness :
    count_checks c7res =
      c7res.rows.length + (c7res.rows.length - 1) + c7res.rows.length +
        (c7res.rows.map presentCount).sum +
        ((c7res.rows.zip c7res.rows.tail).countP
          fun p => p.1.balance.isSome && p.2.balance.isSome) +
        (if c7res.opening_balance.isSome ∧ c7res.closing_balance.isSome then 1
         else 0) ∧
    (validate ⟨2026, 10, 12⟩ c7res).length ≤ count_checks c7res :=
  ⟨(claim7_count_checks ⟨2026, 10, 12⟩ c7res).1 (by simp [c7res]),
   (claim7_count_checks ⟨2026, 10, 12⟩ c7res).2⟩

/-- The non-zero per-field confidences collected by the
`_engine_confidence` row loop: date, amount and balance only. -/
def nonzeroFieldConfidences (result : OCRResult) : List ℚ :=
  (result.rows.map fun row =>
    [row.date_confidence, row.amount_confidence, row.balance_confidence].filter
      fun v => decide (v ≠ 0)).flatten

/-- The engine-quality component as claim C6 words it: the mean of the
non-zero per-field confidences of date, description, amount and balance
(this is the claim's reading, written for comparison with the code's
`engine_confidence`, which ignores `description_confidence`). -/
def engineConfidenceClaimed (result : OCRResult) : ℚ :=
  if 0 < result.overall_confidence then result.overall_confidence
  else
    let confidences :=
      (result.rows.map fun row =>
        [row.date_confidence, row.description_confidence, row.amount_confidence,
         row.balance_confidence].filter fun v => decide (v ≠ 0)).flatten
    if confidences = [] then 0 else confidences.sum / confidences.length

/-- Row whose only non-zero confidence is `description_confidence`
(counterexample data for C6). -/
def c6row : TransactionRow :=
  { transaction_date := none, description := "", description_confidence := 1 / 2 }

/-- One-row table around `c6row`. -/
def c6res : OCRResult := { rows := [c6row] }

/-- Counterexample to C6 as stated: with engine overall confidence 0 and a
single row whose description confidence is 0.5 (all other per-field
confidences 0), the code's engine component is 0, while the claimed
mean over date/description/amount/balance would be 0.5. -/
theorem claim6_counterexample :
    engine_confidence c6res = 0 ∧
    engineConfidenceClaimed c6res = 1 / 2 ∧
    (0 : ℚ) ≠ 1 / 2 := by
  refine ⟨?_, ?_, by norm_num⟩
  · simp only [engine_confidence, c6res, c6row]
    norm_num
  · simp only [engineConfidenceClaimed, c6res, c6row]
    norm_num

/-- C6 (amended): the engine-quality component equals the engine-reported
overall confidence when that is > 0; otherwise it is the mean of the
non-zero per-field confidences of date, amount and balance across all rows
(description confidence is not consulted), and 0 when no such non-zero
value exists. -/
theorem claim6_engine_confidence (result : OCRResult) :
    (0 < result.overall_confidence →
      engine_confidence result = result.overall_confidence) ∧
    (¬ 0 < result.overall_confidence → nonzeroFieldConfidences result = [] →
      engine_confidence result = 0) ∧
    (¬ 0 < result.overall_confidence → nonzeroFieldConfidences result ≠ [] →
      engine_confidence result =
        (nonzeroFieldConfidences result).sum /
          (nonzeroFieldConfidences result).length) := by
  refine ⟨fun h => ?_, fun h h2 => ?_, fun h h2 => ?_⟩
  · simp only [engine_confidence]
    rw [if_pos h]
  · simp only [engine_confidence, nonzeroFieldConfidences] at h2 ⊢
    rw [if_neg h, if_pos h2]
  · simp only [engine_confidence, nonzeroFieldConfidences] at h2 ⊢
    rw [if_neg h, if_neg h2]

/-- Row whose amount confidence is 0.5 (witness data for C6). -/
def c6rowAmt : TransactionRow :=
  { transaction_date := none, description := "", amount_confidence := 1 / 2 }

/-- One-row table around `c6rowAmt`. -/
def c6resAmt : OCRResult := { rows := [c6rowAmt] }

/-- Witness for the amended C6: the all-zero table gives component 0, and
a table with a single non-zero amount confidence gives its mean. -/
theorem claim6_engine_confidence_witness :
    engine_confidence c6res = 0 ∧
    engine_confidence c6resAmt =
      (nonzeroFieldConfidences c6resAmt).sum /
        (nonzeroFieldConfidences c6resAmt).length := by
  constructor
  · exact (claim6_engine_confidence c6res).2.1 (by norm_num [c6res])
      (by norm_num [nonzeroFieldConfidences, c6res, c6row])
  · exact (claim6_engine_confidence c6resAmt).2.2 (by norm_num [c6resAmt])
      (by norm_num [nonzeroFieldConfidences, c6resAmt, c6rowAmt])


lemma weighted_score_range (components : List (Option ℚ × ℚ)) :
    0 ≤ weighted_score components ∧ weighted_score components ≤ 1 := by
  unfold weighted_score
  dsimp only
  split_ifs with h
  · norm_num
  · exact ⟨le_max_left 0 _, max_le (by norm_num) (min_le_left 1 _)⟩

/-- The empty table: no rows, engine overall confidence 0. -/
def emptyRes : OCRResult := {}

lemma detect_signals_empty :
    detect_signals defaultConfig emptyRes =
      [{ signal_type := "NO_ROWS", severity := "CRITICAL",
         action := "MANUAL_REVIEW" }] := by
  simp [detect_signals, emptyRes]

lemma pipeline_rate_empty (today : CalDate) :
    (pipeline_process today emptyRes).rule_pass_rate = 0 := by
  unfold pipeline_process calculate_summary validate count_checks
  norm_num [emptyRes]

lemma weighted_score_empty_eval :
    weighted_score [(some 0, 3 / 10), (some 0, 1 / 4), (some 0, 3 / 10),
      (some (4 / 5 : ℚ), 3 / 20)] = 3 / 25 := by
  have ha : ((0 : ℚ) < 3 / 10) := by norm_num
  have hb : ((0 : ℚ) < 1 / 4) := by norm_num
  have hc : ((0 : ℚ) < 3 / 20) := by norm_num
  unfold weighted_score
  dsimp only
  simp only [List.filter_cons, List.filter_nil, Option.isSome_some, ha, hb, hc,
    decide_True, Bool.true_and, Bool.and_true, if_true]
  rw [if_neg (by norm_num)]
  simp only [List.map_cons, List.map_nil, List.sum_cons, List.sum_nil,
    Option.getD_some]
  rw [min_eq_right (by norm_num), max_eq_right (by norm_num)]
  norm_num

lemma risk_score_eval : risk_signal_score 1 0 0 0 = 4 / 5 := by
  unfold risk_signal_score
  dsimp only
  push_cast
  rw [min_eq_right (by norm_num), max_eq_right (by norm_num)]
  norm_num

lemma assess_empty (today : CalDate) :
    pipeline_assess defaultConfig today emptyRes = (3 / 25, "Low") := by
  unfold pipeline_assess assess
  rw [detect_signals_empty, pipeline_rate_empty]
  dsimp only
  have hcounts : severityCounts
      [{ signal_type := "NO_ROWS", severity := "CRITICAL",
         action := "MANUAL_REVIEW" }] = (1, 0, 0, 0) := by
    simp [severityCounts]
  rw [hcounts]
  dsimp only
  have hengine : engine_confidence emptyRes = 0 := by
    simp [engine_confidence, emptyRes]
  have hfield : field_completeness emptyRes = 0 := by
    simp [field_completeness, emptyRes]
  rw [hengine, hfield, risk_score_eval]
  rw [show defaultConfig.w_engine_quality = 3 / 10 from rfl,
    show defaultConfig.w_field_completeness = 1 / 4 from rfl,
    show defaultConfig.w_rule_consistency = 3 / 10 from rfl,
    show defaultConfig.w_risk_signals = 3 / 20 from rfl,
    weighted_score_empty_eval]
  have hlabel : scorer_label (3 / 25) = "Low" := by
    unfold scorer_label
    rw [if_neg (by norm_num), if_neg (by norm_num)]
  rw [hlabel]

/-- C5 (amended): every confidence score produced by the weighted scorer —
in particular the pipeline's overall score for any table and
configuration — lies in [0, 1]; for the empty table (engine overall
confidence 0) the pipeline's score is 0.12 (= the risk-signal component
0.8 times its weight 0.15, over total weight 1) and the label is "Low". -/
theorem claim5_confidence_range :
    (∀ components : List (Option ℚ × ℚ),
      0 ≤ weighted_score components ∧ weighted_score components ≤ 1) ∧
    (∀ (c : ValidationConfig) (today : CalDate) (result : OCRResult),
      0 ≤ (pipeline_assess c today result).1 ∧
        (pipeline_assess c today result).1 ≤ 1) ∧
    (∀ today : CalDate,
      pipeline_assess defaultConfig today emptyRes = (3 / 25, "Low")) := by
  refine ⟨weighted_score_range, fun c today result => ?_, assess_empty⟩
  unfold pipeline_assess assess
  exact weighted_score_range _

/-- Counterexample to C5 as stated: the empty table's overall score is
0.12, not 0 (the label is still "Low"). -/
theorem claim5_counterexample :
    (pipeline_assess defaultConfig ⟨2026, 10, 12⟩ emptyRes).1 = 3 / 25 ∧
    ((3 / 25 : ℚ) ≠ 0) ∧
    (pipeline_assess defaultConfig ⟨2026, 10, 12⟩ emptyRes).2 = "Low" := by
  refine ⟨?_, by norm_num, ?_⟩ <;> rw [assess_empty]

lemma lowConfAux_p0 (threshold : ℚ) :
    ∀ (rows : List TransactionRow) (idx : Nat) (row : TransactionRow),
      row ∈ rows →
      (row.amount_confidence < threshold ∨ row.balance_confidence < threshold) →
      0 < (lowConfAux threshold idx rows).countP (fun f => f.priority == "P0") := by
  intro rows
  induction rows with
  | nil => intro idx row h; simp at h
  | cons r rest ih =>
    intro idx row hmem hlow
    simp only [lowConfAux, List.countP_append]
    rcases List.mem_cons.1 hmem with rfl | hmem'
    · rcases hlow with h | h
      · have h1 : 0 < ((if row.amount_confidence < threshold then
            [({ row := idx, fieldName := "amount",
                confidence := row.amount_confidence,
                priority := "P0" } : LowConfField)] else []).countP
              (fun f => f.priority == "P0")) := by
          rw [if_pos h]; simp
        omega
      · have h1 : 0 < ((if row.balance_confidence < threshold then
            [({ row := idx, fieldName := "balance",
                confidence := row.balance_confidence,
                priority := "P0" } : LowConfField)] else []).countP
              (fun f => f.priority == "P0")) := by
          rw [if_pos h]; simp
        omega
    · have h1 := ih (idx + 1) row hmem' hlow
      omega

lemma check_low_confidence_ne (c : ValidationConfig) (result : OCRResult)
    (row : TransactionRow) (hmem : row ∈ result.rows)
    (hlow : row.amount_confidence < c.confidence_threshold ∨
      row.balance_confidence < c.confidence_threshold) :
    check_low_confidence c result ≠ [] := by
  unfold check_low_confidence
  dsimp only
  have hp0 := lowConfAux_p0 c.confidence_threshold result.rows 0 row hmem hlow
  rw [if_pos (Or.inl hp0)]
  intro hnil
  rw [hnil] at hp0
  simp at hp0

/-- C9: whenever the low-confidence trigger is enabled and some row of a
non-empty table has amount or balance confidence below the configured
threshold (any such instance is a low P0 instance — in particular the
default confidence value 0.0), `detect_signals` emits a `LOW_CONFIDENCE`
signal with severity HIGH and action REVIEW_RECOMMENDED. -/
theorem claim9_low_confidence (c : ValidationConfig) (result : OCRResult)
    (htrig : c.trig_low_confidence = true) (hne : result.rows ≠ [])
    (row : TransactionRow) (hmem : row ∈ result.rows)
    (hlow : row.amount_confidence < c.confidence_threshold ∨
      row.balance_confidence < c.confidence_threshold) :
    ∃ s ∈ detect_signals c result, s.signal_type = "LOW_CONFIDENCE" ∧
      s.severity = "HIGH" ∧ s.action = "REVIEW_RECOMMENDED" := by
  unfold detect_signals
  rw [if_neg hne]
  have hck := check_low_confidence_ne c result row hmem hlow
  rw [if_pos ⟨htrig, hck⟩]
  exact ⟨{ signal_type := "LOW_CONFIDENCE", severity := "HIGH",
           action := "REVIEW_RECOMMENDED" }, by simp, rfl, rfl, rfl⟩

/-- Row whose confidence fields are all at their 0.0 defaults (witness
data for C9). -/
def c9row : TransactionRow := { transaction_date := none, description := "" }

/-- One-row table around `c9row`. -/
def c9res : OCRResult := { rows := [c9row] }

/-- Witness for C9: a table whose confidence fields were all left at 0.0
triggers the signal under the default configuration. -/
theorem claim9_low_confidence_witness :
    ∃ s ∈ detect_signals defaultConfig c9res, s.signal_type = "LOW_CONFIDENCE" ∧
      s.severity = "HIGH" ∧ s.action = "REVIEW_RECOMMENDED" :=
  claim9_low_confidence defaultConfig c9res rfl (by simp [c9res]) c9row
    (by simp [c9res]) (Or.inl (by show (0 : ℚ) < 17 / 20; norm_num))

lemma match_pattern_name (p : ErrorPattern) (row : TransactionRow) (idx : Nat) :
    ∀ m ∈ match_pattern p row idx, m.pattern_name = p.name := by
  intro m hm
  unfold match_pattern at hm
  rcases hg : get_field_value row p.field with _ | fv <;> rw [hg] at hm <;>
    dsimp only at hm <;> (try split_ifs at hm) <;> simp_all

/-- The `negative_deposit` entry of the default catalog. -/
def negPat : ErrorPattern :=
  { name := "negative_deposit", description := "Deposit amount is negative",
    severity := "CRITICAL", field := "amount", pattern_type := "value_check",
    pattern_value := "negative", fix_suggestion := "Deposits should be positive" }

/-- C10: the pattern matcher's target field `amount` resolves to the
deposit when present and otherwise to the withdrawal, so the default
`negative_deposit` value-check pattern fires for every row whose deposit is
absent and whose withdrawal is present and negative. -/
theorem claim10_negative_deposit (row : TransactionRow) (idx : Nat) :
    (get_field_value row "amount" =
      (match row.deposit with
       | some d => some (.num d)
       | none => row.withdrawal.map .num)) ∧
    (∀ w : Decimal, row.deposit = none → row.withdrawal = some w → w.val < 0 →
      ({ pattern_name := "negative_deposit", row := idx, field := "amount",
         value := (FieldValue.num w).toDisplay, severity := "CRITICAL",
         message := "Deposit amount is negative" ++ ": " ++
           (FieldValue.num w).toDisplay,
         fix_suggestion := "Deposits should be positive" } : PatternMatch) ∈
        rowMatches default_patterns row idx) := by
  constructor
  · unfold get_field_value
    rw [if_pos rfl]
  · intro w hd hw hlt
    have hp : negPat ∈ default_patterns := by simp [default_patterns, negPat]
    have hmatch : match_pattern negPat row idx =
        [{ pattern_name := "negative_deposit", row := idx, field := "amount",
           value := (FieldValue.num w).toDisplay, severity := "CRITICAL",
           message := "Deposit amount is negative" ++ ": " ++
             (FieldValue.num w).toDisplay,
           fix_suggestion := "Deposits should be positive" }] := by
      simp [match_pattern, get_field_value, check_value, negPat, hd, hw, hlt]
    unfold rowMatches
    rw [List.mem_flatten]
    exact ⟨_, List.mem_map_of_mem _ hp, by rw [hmatch]; exact List.mem_singleton_self _⟩

/-- Row with no deposit and withdrawal −5.00 (witness data for C10). -/
def c10row : TransactionRow :=
  { transaction_date := none, description := "", withdrawal := some ⟨-500, -2⟩ }

/-- Witness for C10 at `c10row`. -/
theorem claim10_negative_deposit_witness :
    ({ pattern_name := "negative_deposit", row := 0, field := "amount",
       value := (FieldValue.num ⟨-500, -2⟩).toDisplay, severity := "CRITICAL",
       message := "Deposit amount is negative" ++ ": " ++
         (FieldValue.num ⟨-500, -2⟩).toDisplay,
       fix_suggestion := "Deposits should be positive" } : PatternMatch) ∈
      rowMatches default_patterns c10row 0 :=
  (claim10_negative_deposit c10row 0).2 ⟨-500, -2⟩ rfl rfl
    (by norm_num [Decimal.val, Int.toNat])

/-- A row carrying only raw OCR amount text (data for C8). -/
def rawRow (s : String) : TransactionRow :=
  { transaction_date := none, description := "", amount_raw := s }

/-- C8: on the default catalog, the raw amount "(1,200.00)" fires
`bracket_negative_misread` but not `comma_decimal_confusion` (it contains a
decimal point), "(1200.00)" likewise fires only the bracket pattern of the
two, and `comma_decimal_confusion` can never fire on any raw amount that
contains a '.' — so the two patterns never co-fire on such text. -/
theorem claim8_bracket_patterns :
    ("bracket_negative_misread" ∈
        (rowMatches default_patterns (rawRow "(1,200.00)") 0).map
          (fun m => m.pattern_name) ∧
      "comma_decimal_confusion" ∉
        (rowMatches default_patterns (rawRow "(1,200.00)") 0).map
          (fun m => m.pattern_name)) ∧
    ("bracket_negative_misread" ∈
        (rowMatches default_patterns (rawRow "(1200.00)") 0).map
          (fun m => m.pattern_name) ∧
      "comma_decimal_confusion" ∉
        (rowMatches default_patterns (rawRow "(1200.00)") 0).map
          (fun m => m.pattern_name)) ∧
    (∀ (row : TransactionRow) (idx : Nat), '.' ∈ row.amount_raw.toList →
      "comma_decimal_confusion" ∉
        (rowMatches default_patterns row idx).map (fun m => m.pattern_name)) := by
  refine ⟨by decide, by decide, ?_⟩
  intro row idx hdot hmem
  rw [List.mem_map] at hmem
  obtain ⟨m, hm, hname⟩ := hmem
  unfold rowMatches at hm
  rw [List.mem_flatten] at hm
  obtain ⟨l, hl, hml⟩ := hm
  rw [List.mem_map] at hl
  obtain ⟨p, hp, rfl⟩ := hl
  have hpn : p.name = "comma_decimal_confusion" := by
    rw [← hname, match_pattern_name p row idx m hml]
  have hc : row.amount_raw.toList.contains '.' = true := by
    simpa using hdot
  simp only [default_patterns, List.mem_cons, List.not_mem_nil, or_false] at hp
  rcases hp with rfl | rfl | rfl | rfl | rfl | rfl | rfl <;>
    (try (simp at hpn)) <;>
    simp [match_pattern, get_field_value, check_format, hc] at hml <;>
    exact hml.1.2 hdot

/-- Witness for C8: the no-co-fire implication applied at the raw amount
"(1,200.00)", which contains a decimal point. -/
theorem claim8_bracket_patterns_witness :
    "comma_decimal_confusion" ∉
      (rowMatches default_patterns (rawRow "(1,200.00)") 0).map
        (fun m => m.pattern_name) :=
  claim8_bracket_patterns.2.2 (rawRow "(1,200.00)") 0 (by decide)
